import Mathlib

/-
  Verification of the caching dataset subsystem of `monai/data/dataset.py`.

  The Python classes `Dataset`, `PersistentDataset`, `CacheDataset`,
  `ZipDataset` and `ArrayDataset` are shallowly embedded below.  Records
  (Python dictionaries flowing through the transform pipeline) are modelled
  as association lists from string keys to a small value type; transforms
  are functions on records carrying the `Randomizable` capability tag; the
  cache directory is modelled as an explicit key-value file system together
  with a trace of the primitive file-system events the code performs.
-/

set_option autoImplicit false

namespace Monai

/-- Values stored in a record (a Python dict entry): booleans, integers and
strings suffice for the claims under study. -/
inductive Val where
  | bool (b : Bool)
  | int (n : Int)
  | str (s : String)
  deriving DecidableEq

/-- A record: one data element flowing through the pipeline, modelled as an
association list from field name to value (a Python dictionary). -/
abbrev Record := List (String × Val)

/-- Lookup of a key in a record, mirroring Python `dict.get`: the first
binding of the key, `none` when absent. -/
def Record.get : Record → String → Option Val
  | [], _ => none
  | (k, v) :: rest, key => if k = key then some v else Record.get rest key

/-- Key assignment `d[key] = v` on a Python dict: replace the value in place
when the key is present, append the new binding at the end otherwise. -/
def Record.insert : Record → String → Val → Record
  | [], key, v => [(key, v)]
  | (k, w) :: rest, key, v =>
      if k = key then (k, v) :: rest else (k, w) :: Record.insert rest key v

/-- Modelled from the spec: a pipeline stage (`monai.transforms` is not part
of the sources under study).  Per spec section 6, a stage is a callable
taking one record-shaped value and returning one, exposing a queryable
"is this a random stage" flag; per section 9 the `isinstance(_, Randomizable)`
check of the code is rendered as this capability tag. -/
structure Transform where
  isRandom : Bool
  fn : Record → Record

/-- Modelled from the spec: `monai.transforms.utils.apply_transform` applies
one stage to one record-shaped value (spec section 4.1: "a stage is free to
replace, augment, or return the record"). -/
def applyTransform (t : Transform) (item : Record) : Record :=
  t.fn item

/-- Modelled from the spec: `Compose.__call__` (spec section 4.1,
"`apply(stages, record)` runs each stage in order, passing the output of one
as the input to the next"). -/
def composeApply : List Transform → Record → Record
  | [], item => item
  | t :: rest, item => composeApply rest (applyTransform t item)

/-- Embedding of `PersistentDataset._pre_first_random_transform`
(`dataset.py` lines 114-129): execute the deterministic stages, stopping at
the first stage that is an instance of `Randomizable`. -/
def preFirstRandomTransform : List Transform → Record → Record
  | [], item => item
  | t :: rest, item =>
      if t.isRandom then item
      else preFirstRandomTransform rest (applyTransform t item)

/-- Loop body of `PersistentDataset._first_random_and_beyond_transform`
(`dataset.py` lines 131-144): `flag` is the `start_post_randomize_run`
variable; once it is set, every later stage is applied regardless of its
own tag. -/
def firstRandomAndBeyondAux (flag : Bool) : List Transform → Record → Record
  | [], item => item
  | t :: rest, item =>
      if flag || t.isRandom then
        firstRandomAndBeyondAux true rest (applyTransform t item)
      else
        firstRandomAndBeyondAux flag rest item

/-- Embedding of `PersistentDataset._first_random_and_beyond_transform`:
the loop starts with `start_post_randomize_run = False`. -/
def firstRandomAndBeyondTransform (ts : List Transform) (item : Record) : Record :=
  firstRandomAndBeyondAux false ts item

theorem firstRandomAndBeyondAux_true (ts : List Transform) (item : Record) :
    firstRandomAndBeyondAux true ts item = composeApply ts item := by
  induction ts generalizing item with
  | nil => rfl
  | cons t rest ih => simp [firstRandomAndBeyondAux, composeApply, ih]

/-- C1: for every transform list and every record, applying the stages
strictly before the first `Randomizable` stage and then applying the first
`Randomizable` stage and everything after it (regardless of the later
stages' own tags) yields the same final record as applying every stage of
the `Compose` in order. -/
theorem pre_then_beyond_eq_compose (ts : List Transform) (item : Record) :
    firstRandomAndBeyondTransform ts (preFirstRandomTransform ts item)
      = composeApply ts item := by
  induction ts generalizing item with
  | nil => rfl
  | cons t rest ih =>
      by_cases hr : t.isRandom
      · simp [firstRandomAndBeyondTransform, firstRandomAndBeyondAux,
              preFirstRandomTransform, composeApply, hr,
              firstRandomAndBeyondAux_true]
      · simpa [firstRandomAndBeyondTransform, firstRandomAndBeyondAux,
               preFirstRandomTransform, composeApply, hr] using ih _

/-- Embedding of `monai.data.dataset.Dataset` (`dataset.py` lines 31-61): a
list of raw records and an optional callable transform. -/
structure Dataset where
  data : List Record
  transform : Option (Record → Record)

/-- Embedding of `Dataset.__getitem__` (`dataset.py` lines 56-61): fetch the
record at `index` and apply the transform when one is configured.  Out of
range indices are rendered by `List.getD` with an empty-record default; all
theorems below carry explicit in-range hypotheses. -/
def Dataset.getitem (d : Dataset) (index : Nat) : Record :=
  let x := d.data.getD index []
  match d.transform with
  | none => x
  | some f => f x

/-- Python `int()` applied to a rational value: truncation toward zero (for
non-negative arguments this is the floor). -/
def pyInt (q : ℚ) : ℤ :=
  if 0 ≤ q then ⌊q⌋ else -⌊-q⌋

/-- Embedding of `CacheDataset._load_cache_item` (`dataset.py` lines
265-271): execute the deterministic transforms before the first random
transform. -/
def loadCacheItem (item : Record) : List Transform → Record
  | [] => item
  | t :: rest =>
      if t.isRandom then item
      else loadCacheItem (applyTransform t item) rest

/-- Embedding of `monai.data.dataset.CacheDataset`: raw records, the
`Compose`'s transform list, the computed `cache_num` and the `_cache`
slot array. -/
structure CacheDataset where
  data : List Record
  transform : List Transform
  cache_num : ℤ
  cache : List Record

/-- Embedding of `CacheDataset.__init__` (`dataset.py` lines 231-263):
`cache_num = min(cache_num, int(len(self) * cache_rate), len(self))`, and
slot `i` of `_cache` holds `_load_cache_item(data[i], transforms)`.  The
serial and thread-pool warm-up paths fill the slots with the same values;
the serial path is the one embedded. -/
def CacheDataset.init (data : List Record) (ts : List Transform)
    (cache_num : ℤ) (cache_rate : ℚ) : CacheDataset :=
  let n : ℤ := min cache_num (min (pyInt ((data.length : ℚ) * cache_rate)) (data.length : ℤ))
  ⟨data, ts, n, (List.range n.toNat).map (fun i => loadCacheItem (data.getD i []) ts)⟩

/-- Loop of the cached branch of `CacheDataset.__getitem__` (`dataset.py`
lines 283-290): `flag` is the `start_run` variable; deterministic stages
before the first random stage are skipped (`continue`), everything from the
first random stage onward is applied. -/
def cacheRunFromFirstRandom (flag : Bool) : List Transform → Record → Record
  | [], data => data
  | t :: rest, data =>
      if !flag && !t.isRandom then cacheRunFromFirstRandom flag rest data
      else cacheRunFromFirstRandom true rest (applyTransform t data)

/-- Embedding of `CacheDataset.__getitem__` (`dataset.py` lines 280-294):
for an index inside the warmed range, start from the cached slot and run
from the first random transform onward; otherwise delegate to the inherited
`Dataset.__getitem__` over the same data with the composed transform. -/
def CacheDataset.getitem (cd : CacheDataset) (index : Nat) : Record :=
  if (index : ℤ) < cd.cache_num then
    cacheRunFromFirstRandom false cd.transform (cd.cache.getD index [])
  else
    Dataset.getitem ⟨cd.data, some (composeApply cd.transform)⟩ index

/-- C2: for every `CacheDataset` built over `data` and a transform list, an
index with `cache_num <= index < len(data)` is served by running the full
pipeline from the raw record, exactly as the plain `Dataset` over the same
data and composed transform would; in particular when `cache_num = 0` every
index access behaves identically to the plain uncached dataset. -/
theorem cacheDataset_beyond_cache_eq_plain (data : List Record)
    (ts : List Transform) (cache_num : ℤ) (cache_rate : ℚ) :
    (∀ index : Nat, (CacheDataset.init data ts cache_num cache_rate).cache_num ≤ (index : ℤ) →
      index < data.length →
      (CacheDataset.init data ts cache_num cache_rate).getitem index
        = Dataset.getitem ⟨data, some (composeApply ts)⟩ index) ∧
    ((CacheDataset.init data ts cache_num cache_rate).cache_num = 0 →
      ∀ index : Nat, index < data.length →
      (CacheDataset.init data ts cache_num cache_rate).getitem index
        = Dataset.getitem ⟨data, some (composeApply ts)⟩ index) := by
  constructor
  · intro index hge _
    unfold CacheDataset.getitem
    rw [if_neg (not_lt.mpr hge)]
    rfl
  · intro h0 index _
    unfold CacheDataset.getitem
    rw [if_neg (by rw [h0]; exact not_lt.mpr (Int.natCast_nonneg index))]
    rfl

/-- Witness for C2 at a concrete input: one record, empty transform list,
`cache_num` request 0, `cache_rate` 0, index 0. -/
theorem cacheDataset_beyond_cache_eq_plain_witness :
    ((CacheDataset.init [[(("k"), Val.str ("v"))]] [] 0 0).cache_num ≤ ((0 : Nat) : ℤ)) ∧
    ((0 : Nat) < ([[(("k"), Val.str ("v"))]] : List Record).length) ∧
    ((CacheDataset.init [[(("k"), Val.str ("v"))]] [] 0 0).getitem 0
      = Dataset.getitem ⟨[[(("k"), Val.str ("v"))]], some (composeApply [])⟩ 0) := by
  have hle : (CacheDataset.init [[(("k"), Val.str ("v"))]] [] 0 0).cache_num ≤ ((0 : Nat) : ℤ) := by
    simp only [CacheDataset.init]
    exact le_trans (min_le_left _ _) (by norm_num)
  refine ⟨hle, by decide, ?_⟩
  exact (cacheDataset_beyond_cache_eq_plain [[(("k"), Val.str ("v"))]] [] 0 0).1 0
    hle (by decide)

/-- C8: for every `CacheDataset` constructed with `cache_num`, a
non-negative `cache_rate` and `data` of length `total_len`, the effective
number of cached slots equals
`min(cache_num, floor(total_len * cache_rate), total_len)`. -/
theorem cacheDataset_cache_num_eq_min (data : List Record)
    (ts : List Transform) (cache_num : ℤ) (cache_rate : ℚ)
    (h : 0 ≤ cache_rate) :
    (CacheDataset.init data ts cache_num cache_rate).cache_num
      = min cache_num (min ⌊(data.length : ℚ) * cache_rate⌋ (data.length : ℤ)) := by
  unfold CacheDataset.init pyInt
  simp only
  rw [if_pos (mul_nonneg (by positivity) h)]

/-- Witness for C8: five records, requested `cache_num` 2, `cache_rate`
one half. -/
theorem cacheDataset_cache_num_eq_min_witness :
    (0 ≤ (1 / 2 : ℚ)) ∧
    ((CacheDataset.init [[], [], [], [], []] [] 2 (1 / 2)).cache_num
      = min 2 (min ⌊(([[], [], [], [], []] : List Record).length : ℚ) * (1 / 2)⌋
          (([[], [], [], [], []] : List Record).length : ℤ))) :=
  ⟨by norm_num, cacheDataset_cache_num_eq_min [[], [], [], [], []] [] 2 (1 / 2) (by norm_num)⟩

/-- C10: a `Dataset` constructed with `transform = None` returns the raw
record `data[index]` unchanged at every valid index. -/
theorem dataset_no_transform_identity (data : List Record) (index : Nat)
    (h : index < data.length) :
    Dataset.getitem ⟨data, none⟩ index = data.get ⟨index, h⟩ := by
  unfold Dataset.getitem
  simp [List.getD_eq_getElem?_getD, List.getElem?_eq_getElem h]

/-- Witness for C10: two records, index 1. -/
theorem dataset_no_transform_identity_witness :
    ((1 : Nat) < ([[], [(("k"), Val.int 3)]] : List Record).length) ∧
    (Dataset.getitem ⟨[[], [(("k"), Val.int 3)]], none⟩ 1
      = ([[], [(("k"), Val.int 3)]] : List Record).get ⟨1, by decide⟩) :=
  ⟨by decide, dataset_no_transform_identity [[], [(("k"), Val.int 3)]] 1 (by decide)⟩

/-- Rendering of one value as in `json.dumps` (an external standard-library
function): booleans lower-case, integers as decimal, strings quoted
(escaping of special characters is elided; no claim depends on it). -/
def Val.render : Val → String
  | Val.bool true => "true"
  | Val.bool false => "false"
  | Val.int n => toString n
  | Val.str s => "\"" ++ s ++ "\""

/-- Lexicographic comparison of character lists by code point, the order
Python uses on `str` keys. -/
def charListLt : List Char → List Char → Bool
  | [], [] => false
  | [], _ :: _ => true
  | _ :: _, [] => false
  | a :: as, b :: bs =>
      if a.toNat < b.toNat then true
      else if b.toNat < a.toNat then false
      else charListLt as bs

/-- Lexicographic order on strings by code point. -/
def strLt (a b : String) : Bool :=
  charListLt a.data b.data

/-- Insertion of one binding into a key-sorted association list. -/
def insertSortedByKey (kv : String × Val) : List (String × Val) → List (String × Val)
  | [] => [kv]
  | p :: rest =>
      if strLt kv.1 p.1 then kv :: p :: rest else p :: insertSortedByKey kv rest

/-- Sorting of a record's bindings by key (the effect of `sort_keys=True`). -/
def sortByKey : List (String × Val) → List (String × Val)
  | [] => []
  | p :: rest => insertSortedByKey p (sortByKey rest)

/-- Serialization of a record as in
`json.dumps(item_transformed, sort_keys=True)` (`dataset.py` line 171):
the bindings sorted by key, rendered in JSON object syntax. -/
def jsonDumpSorted (r : Record) : String :=
  "\x7b" ++ String.intercalate (", ")
      ((sortByKey r).map (fun kv => "\"" ++ kv.1 ++ "\": " ++ Val.render kv.2))
    ++ "\x7d"

/-- A path inside the cache directory, mirroring `pathlib.Path` as used by
the code: directory, file stem, and extension (the part `with_suffix`
replaces). -/
structure CachePath where
  dir : String
  stem : String
  ext : String
  deriving DecidableEq

/-- Semantics of `pathlib.Path.with_suffix`: replace the extension (the md5
hex stem contains no dot, so the whole suffix is the extension). -/
def CachePath.withSuffix (p : CachePath) (e : String) : CachePath :=
  ⟨p.dir, p.stem, e⟩

/-- The file system visible to `PersistentDataset`: the set of existing
directories and the records persisted at cache paths (`torch.save` and
`torch.load` are external serialization routines; the blob they write and
read back is modelled as the record itself). -/
structure FS where
  dirs : List String
  files : List (CachePath × Record)
  deriving DecidableEq

/-- Semantics of `Path.is_dir` on the modelled file system. -/
def FS.isDir (fs : FS) (d : String) : Bool :=
  fs.dirs.contains d

/-- Content stored at a path (`Path.is_file` is a lookup yielding `some`). -/
def FS.lookup (fs : FS) (p : CachePath) : Option Record :=
  match fs.files.find? (fun q => q.1 == p) with
  | some q => some q.2
  | none => none

/-- Semantics of `torch.save(blob, p)`: (over)write the file at `p`. -/
def FS.save (fs : FS) (p : CachePath) (r : Record) : FS :=
  ⟨fs.dirs, (p, r) :: fs.files.filter (fun q => !(q.1 == p))⟩

/-- Semantics of `Path.rename`: the content of `src` moves to `dst`. -/
def FS.rename (fs : FS) (src dst : CachePath) : FS :=
  match fs.lookup src with
  | none => fs
  | some r => ⟨fs.dirs, (dst, r) :: fs.files.filter (fun q => !(q.1 == src) && !(q.1 == dst))⟩

/-- One primitive file-system action performed by the cache check, in
program order; `save` is the only operation that opens a path for direct
writing. -/
inductive FsEvent where
  | save (path : CachePath) (blob : Record)
  | rename (src dst : CachePath)
  | load (path : CachePath)
  deriving DecidableEq

/-- Key tested by the cache check (`dataset.py` line 164). -/
def cachedKey : String := "cached"

/-- Key of the sentinel flag inserted before saving (`dataset.py` line 181). -/
def cacheKey : String := "cache"

/-- Suffix of the in-progress temporary file (`dataset.py` line 185). -/
def tempSuffix : String := ".temp_write_cache"

/-- Embedding of `monai.data.dataset.PersistentDataset`: raw records, the
`Compose`'s transform list and the optional cache directory. -/
structure PersistentDataset where
  data : List Record
  transform : List Transform
  cache_dir : Option String

/-- Fingerprint computed at `dataset.py` lines 170-172:
`hashlib.md5(json.dumps(item_transformed, sort_keys=True).encode()).hexdigest()`.
The md5 hex digest itself is the external `hashlib` routine, passed in as
an arbitrary function `md5hex` of the serialized text; the dataset instance
is an argument because the code computes the digest inside a method, but no
field of it is consulted. -/
def PersistentDataset.fingerprint (pds : PersistentDataset)
    (md5hex : String → String) (item : Record) : String :=
  md5hex (jsonDumpSorted item)

/-- The canonical cache path built at `dataset.py` line 173:
`Path(cache_dir) / f"{data_item_md5}.pt"`. -/
def hashfilePath (md5hex : String → String) (d : String) (item : Record) : CachePath :=
  ⟨d, md5hex (jsonDumpSorted item), ".pt"⟩

/-- Embedding of `PersistentDataset._pre_first_random_cachecheck`
(`dataset.py` lines 146-189).  Returns the resulting record, the file
system after the call, and the trace of file-system actions performed.
Branch structure mirrors the code: the outer test is
`item_transformed.get("cached", False) is False`; `hashfile` is set only
when a cache directory is configured and exists; an existing `hashfile` is
loaded; otherwise the deterministic stages run and, when `hashfile` is set,
the flagged result is saved to the temporary path and renamed. -/
def preFirstRandomCachecheck (md5hex : String → String) (pds : PersistentDataset)
    (fs : FS) (item : Record) : Record × FS × List FsEvent :=
  if (Record.get item cachedKey).getD (Val.bool false) = Val.bool false then
    let hashfile : Option CachePath :=
      match pds.cache_dir with
      | none => none
      | some d => if fs.isDir d then some (hashfilePath md5hex d item) else none
    match hashfile with
    | some hf =>
        match fs.lookup hf with
        | some blob => (blob, fs, [FsEvent.load hf])
        | none =>
            let item1 := preFirstRandomTransform pds.transform item
            let item2 := Record.insert item1 cacheKey (Val.bool true)
            let tmp := CachePath.withSuffix hf tempSuffix
            (item2, FS.rename (FS.save fs tmp item2) tmp hf,
              [FsEvent.save tmp item2, FsEvent.rename tmp hf])
    | none => (preFirstRandomTransform pds.transform item, fs, [])
  else (item, fs, [])

/-- Embedding of `PersistentDataset.__getitem__` (`dataset.py` lines
191-194): the cache check on `data[index]` followed by the random-and-beyond
stages, returning the sample, the updated file system and the event trace. -/
def PersistentDataset.getitem (md5hex : String → String) (pds : PersistentDataset)
    (fs : FS) (index : Nat) : Record × FS × List FsEvent :=
  let r := preFirstRandomCachecheck md5hex pds fs (pds.data.getD index [])
  (firstRandomAndBeyondTransform pds.transform r.1, r.2.1, r.2.2)

theorem Record.get_insert_self (r : Record) (k : String) (v : Val) :
    Record.get (Record.insert r k v) k = some v := by
  induction r with
  | nil => simp [Record.insert, Record.get]
  | cons p rest ih =>
      by_cases hk : p.1 = k
      · simp [Record.insert, Record.get, hk]
      · simp [Record.insert, Record.get, hk, ih]

theorem cachecheck_save_events_temp (md5hex : String → String)
    (pds : PersistentDataset) (fs : FS) (item : Record) :
    ((preFirstRandomCachecheck md5hex pds fs item).2.2.all
      (fun e => match e with
        | FsEvent.save p _ => p.ext == tempSuffix
        | _ => true)) = true := by
  unfold preFirstRandomCachecheck
  by_cases hb : (Record.get item cachedKey).getD (Val.bool false) = Val.bool false
  · rw [if_pos hb]
    cases hcd : pds.cache_dir with
    | none => simp
    | some d =>
        by_cases hd : fs.isDir d
        · simp only [hd, if_true]
          cases hl : fs.lookup (hashfilePath md5hex d item) with
          | some blob => simp [hl]
          | none => simp [hl, CachePath.withSuffix]
        · simp [hd]
  · rw [if_neg hb]
    simp

theorem lookup_save_rename (fs : FS) (p q : CachePath) (r : Record) :
    FS.lookup (FS.rename (FS.save fs p r) p q) q = some r := by
  have h1 : FS.lookup (FS.save fs p r) p = some r := by
    simp [FS.save, FS.lookup, List.find?]
  unfold FS.rename
  rw [h1]
  simp [FS.lookup, List.find?]

/-- C5: on a cache miss with a configured and existing cache directory, the
trace of file-system actions is exactly a `save` to the temporary path
followed by a `rename` of that path to the canonical cache path; the
temporary path differs from every canonical cache path (its extension is
`.temp_write_cache`, never `.pt`), and in every branch of the cache check
each `save` event targets a `.temp_write_cache` path, so the canonical
path is never opened for direct writing. -/
theorem persistent_atomic_write (md5hex : String → String)
    (pds : PersistentDataset) (fs : FS) (item : Record) (d : String)
    (hbranch : (Record.get item cachedKey).getD (Val.bool false) = Val.bool false)
    (hdir : pds.cache_dir = some d)
    (hisdir : fs.isDir d = true)
    (hmiss : fs.lookup (hashfilePath md5hex d item) = none) :
    ((preFirstRandomCachecheck md5hex pds fs item).2.2
       = [FsEvent.save (CachePath.withSuffix (hashfilePath md5hex d item) tempSuffix)
            (preFirstRandomCachecheck md5hex pds fs item).1,
          FsEvent.rename (CachePath.withSuffix (hashfilePath md5hex d item) tempSuffix)
            (hashfilePath md5hex d item)]) ∧
    (∀ item2 : Record,
      CachePath.withSuffix (hashfilePath md5hex d item) tempSuffix
        ≠ hashfilePath md5hex d item2) ∧
    (∀ (fs2 : FS) (item2 : Record),
      ((preFirstRandomCachecheck md5hex pds fs2 item2).2.2.all
        (fun e => match e with
          | FsEvent.save p _ => p.ext == tempSuffix
          | _ => true)) = true) := by
  refine ⟨?_, ?_, fun fs2 item2 => cachecheck_save_events_temp md5hex pds fs2 item2⟩
  · simp [preFirstRandomCachecheck, hbranch, hdir, hisdir, hmiss]
  · intro item2 h
    have hext := congrArg CachePath.ext h
    simp [CachePath.withSuffix, hashfilePath, tempSuffix] at hext

/-- Witness for C5: one raw record, empty transform list, cache directory
`cd` present and initially empty, digest function the identity. -/
theorem persistent_atomic_write_witness :
    ((Record.get [(("k"), Val.str ("v"))] cachedKey).getD (Val.bool false) = Val.bool false) ∧
    ((⟨[[(("k"), Val.str ("v"))]], [], some ("cd")⟩ : PersistentDataset).cache_dir = some ("cd")) ∧
    ((⟨["cd"], []⟩ : FS).isDir ("cd") = true) ∧
    ((⟨["cd"], []⟩ : FS).lookup
        (hashfilePath (fun s => s) ("cd") [(("k"), Val.str ("v"))]) = none) ∧
    (((preFirstRandomCachecheck (fun s => s)
          ⟨[[(("k"), Val.str ("v"))]], [], some ("cd")⟩ ⟨["cd"], []⟩ [(("k"), Val.str ("v"))]).2.2
       = [FsEvent.save
            (CachePath.withSuffix (hashfilePath (fun s => s) ("cd") [(("k"), Val.str ("v"))]) tempSuffix)
            (preFirstRandomCachecheck (fun s => s)
              ⟨[[(("k"), Val.str ("v"))]], [], some ("cd")⟩ ⟨["cd"], []⟩ [(("k"), Val.str ("v"))]).1,
          FsEvent.rename
            (CachePath.withSuffix (hashfilePath (fun s => s) ("cd") [(("k"), Val.str ("v"))]) tempSuffix)
            (hashfilePath (fun s => s) ("cd") [(("k"), Val.str ("v"))])]) ∧
     (∀ item2 : Record,
        CachePath.withSuffix (hashfilePath (fun s => s) ("cd") [(("k"), Val.str ("v"))]) tempSuffix
          ≠ hashfilePath (fun s => s) ("cd") item2) ∧
     (∀ (fs2 : FS) (item2 : Record),
        ((preFirstRandomCachecheck (fun s => s)
            ⟨[[(("k"), Val.str ("v"))]], [], some ("cd")⟩ fs2 item2).2.2.all
          (fun e => match e with
            | FsEvent.save p _ => p.ext == tempSuffix
            | _ => true)) = true)) :=
  ⟨by decide, rfl, by decide, by decide,
    persistent_atomic_write (fun s => s)
      ⟨[[(("k"), Val.str ("v"))]], [], some ("cd")⟩ ⟨["cd"], []⟩
      [(("k"), Val.str ("v"))] ("cd") (by decide) rfl (by decide) (by decide)⟩

/-- C7: the fingerprint depends only on the serialized content of the raw
record.  For any two `PersistentDataset` instances configured with
different transform pipelines and any two records with equal sorted-key
JSON serializations, the fingerprints coincide, and so do the cache file
paths under any common cache directory. -/
theorem fingerprint_content_only (md5hex : String → String)
    (pds1 pds2 : PersistentDataset) (r1 r2 : Record)
    (ht : pds1.transform ≠ pds2.transform)
    (hser : jsonDumpSorted r1 = jsonDumpSorted r2) :
    pds1.fingerprint md5hex r1 = pds2.fingerprint md5hex r2 ∧
    ∀ d : String, hashfilePath md5hex d r1 = hashfilePath md5hex d r2 := by
  constructor
  · unfold PersistentDataset.fingerprint
    rw [hser]
  · intro d
    unfold hashfilePath
    rw [hser]

/-- Witness for C7: one instance with no stages, one with a single random
stage; the two records bind the same keys in different orders, so their
sorted-key serializations agree. -/
theorem fingerprint_content_only_witness :
    ((⟨[], [], none⟩ : PersistentDataset).transform
        ≠ (⟨[], [⟨true, fun r => r⟩], none⟩ : PersistentDataset).transform) ∧
    (jsonDumpSorted [(("a"), Val.int 1), (("b"), Val.int 2)]
        = jsonDumpSorted [(("b"), Val.int 2), (("a"), Val.int 1)]) ∧
    ((⟨[], [], none⟩ : PersistentDataset).fingerprint (fun s => s)
          [(("a"), Val.int 1), (("b"), Val.int 2)]
        = (⟨[], [⟨true, fun r => r⟩], none⟩ : PersistentDataset).fingerprint (fun s => s)
          [(("b"), Val.int 2), (("a"), Val.int 1)] ∧
     ∀ d : String,
        hashfilePath (fun s => s) d [(("a"), Val.int 1), (("b"), Val.int 2)]
          = hashfilePath (fun s => s) d [(("b"), Val.int 2), (("a"), Val.int 1)]) :=
  ⟨fun h => List.noConfusion h, by decide,
    fingerprint_content_only (fun s => s) ⟨[], [], none⟩ ⟨[], [⟨true, fun r => r⟩], none⟩
      [(("a"), Val.int 1), (("b"), Val.int 2)] [(("b"), Val.int 2), (("a"), Val.int 1)]
      (fun h => List.noConfusion h) (by decide)⟩

/-- A concrete raw record used by the concrete-input theorems below. -/
def sampleRec : Record := [(("k"), Val.str ("v"))]

/-- A concrete `PersistentDataset` with an empty transform list and cache
directory `cd`. -/
def missDataset : PersistentDataset := ⟨[sampleRec], [], some ("cd")⟩

/-- A concrete file system in which directory `cd` exists and holds no
cache entries yet. -/
def emptyCacheFS : FS := ⟨["cd"], []⟩

/-- The file system after the first access: the pre-random state of
`sampleRec` has been cached. -/
def fsAfterFirstAccess : FS :=
  (preFirstRandomCachecheck (fun s => s) missDataset emptyCacheFS sampleRec).2.1

/-- The record a second access deserializes from the cache file: it carries
the sentinel binding `"cache" = True` written before the save. -/
def markerRecord : Record :=
  (preFirstRandomCachecheck (fun s => s) missDataset fsAfterFirstAccess sampleRec).1

/-- C6 (amended): on a miss with a configured and existing cache directory
the persistent entry is stored at `{cache_dir}/{fingerprint}.pt` — the
fingerprint being the digest of the serialized record — via a rename that
is the last file-system action, and the final file system holds the saved
record at exactly that path. -/
theorem persistent_cache_path_layout (md5hex : String → String)
    (pds : PersistentDataset) (fs : FS) (item : Record) (d : String)
    (hbranch : (Record.get item cachedKey).getD (Val.bool false) = Val.bool false)
    (hdir : pds.cache_dir = some d)
    (hisdir : fs.isDir d = true)
    (hmiss : fs.lookup (hashfilePath md5hex d item) = none) :
    (hashfilePath md5hex d item
        = ⟨d, PersistentDataset.fingerprint pds md5hex item, (".pt")⟩) ∧
    ((preFirstRandomCachecheck md5hex pds fs item).2.2.getLast?
        = some (FsEvent.rename
            (CachePath.withSuffix (hashfilePath md5hex d item) tempSuffix)
            (hashfilePath md5hex d item))) ∧
    (FS.lookup (preFirstRandomCachecheck md5hex pds fs item).2.1 (hashfilePath md5hex d item)
        = some (preFirstRandomCachecheck md5hex pds fs item).1) := by
  refine ⟨rfl, ?_, ?_⟩
  · simp [preFirstRandomCachecheck, hbranch, hdir, hisdir, hmiss]
  · simp only [preFirstRandomCachecheck, hbranch, if_true, hdir, hisdir]
    simp only [if_pos rfl, hmiss]
    exact lookup_save_rename fs _ _ _

/-- Witness for C6's amended statement: the concrete miss scenario. -/
theorem persistent_cache_path_layout_witness :
    ((Record.get sampleRec cachedKey).getD (Val.bool false) = Val.bool false) ∧
    (missDataset.cache_dir = some ("cd")) ∧
    (emptyCacheFS.isDir ("cd") = true) ∧
    (emptyCacheFS.lookup (hashfilePath (fun s => s) ("cd") sampleRec) = none) ∧
    ((hashfilePath (fun s => s) ("cd") sampleRec
        = ⟨("cd"), PersistentDataset.fingerprint missDataset (fun s => s) sampleRec, (".pt")⟩) ∧
     ((preFirstRandomCachecheck (fun s => s) missDataset emptyCacheFS sampleRec).2.2.getLast?
        = some (FsEvent.rename
            (CachePath.withSuffix (hashfilePath (fun s => s) ("cd") sampleRec) tempSuffix)
            (hashfilePath (fun s => s) ("cd") sampleRec))) ∧
     (FS.lookup (preFirstRandomCachecheck (fun s => s) missDataset emptyCacheFS sampleRec).2.1
          (hashfilePath (fun s => s) ("cd") sampleRec)
        = some (preFirstRandomCachecheck (fun s => s) missDataset emptyCacheFS sampleRec).1)) :=
  ⟨by decide, rfl, by decide, by decide,
    persistent_cache_path_layout (fun s => s) missDataset emptyCacheFS sampleRec ("cd")
      (by decide) rfl (by decide) (by decide)⟩

/-- Counterexample to C6 as stated: at the concrete miss scenario no entry
exists at `{cache_dir}/{fingerprint}.cache`; the entry lives at
`{cache_dir}/{fingerprint}.pt` instead. -/
theorem persistent_cache_path_claim_false :
    (FS.lookup (preFirstRandomCachecheck (fun s => s) missDataset emptyCacheFS sampleRec).2.1
        ⟨("cd"), PersistentDataset.fingerprint missDataset (fun s => s) sampleRec, (".cache")⟩
      = none) ∧
    (FS.lookup (preFirstRandomCachecheck (fun s => s) missDataset emptyCacheFS sampleRec).2.1
        ⟨("cd"), PersistentDataset.fingerprint missDataset (fun s => s) sampleRec, (".pt")⟩
      = some (preFirstRandomCachecheck (fun s => s) missDataset emptyCacheFS sampleRec).1) := by
  decide

/-- C4: the code contradicts its own sentinel-flag comment.  The record a
cache hit deserializes does carry the marker binding `"cache" = True`, but
the guard of `_pre_first_random_cachecheck` tests the key `"cached"`, which
the marker-carrying record does not bind; a subsequent pass over that
record therefore re-enters the caching branch and writes to the cache
directory again instead of returning immediately. -/
theorem cached_marker_key_mismatch :
    (Record.get markerRecord cacheKey = some (Val.bool true)) ∧
    (Record.get markerRecord cachedKey = none) ∧
    ((preFirstRandomCachecheck (fun s => s) missDataset fsAfterFirstAccess sampleRec).2.2
        = [FsEvent.load (hashfilePath (fun s => s) ("cd") sampleRec)]) ∧
    ((preFirstRandomCachecheck (fun s => s) missDataset fsAfterFirstAccess markerRecord).2.2
        ≠ []) := by
  decide

theorem preFirstRandom_absent (ts : List Transform) (k : String)
    (hts : ∀ t ∈ ts, ∀ r : Record, Record.get r k = none →
      Record.get (applyTransform t r) k = none) :
    ∀ r : Record, Record.get r k = none →
      Record.get (preFirstRandomTransform ts r) k = none := by
  induction ts with
  | nil => intro r hr; exact hr
  | cons t rest ih =>
      intro r hr
      unfold preFirstRandomTransform
      by_cases h : t.isRandom
      · rw [if_pos h]; exact hr
      · rw [if_neg h]
        exact ih (fun u hu => hts u (List.mem_cons_of_mem _ hu)) _
          (hts t (List.mem_cons_self _ _) r hr)

theorem beyondAux_absent (ts : List Transform) (k : String)
    (hts : ∀ t ∈ ts, ∀ r : Record, Record.get r k = none →
      Record.get (applyTransform t r) k = none) :
    ∀ (flag : Bool) (r : Record), Record.get r k = none →
      Record.get (firstRandomAndBeyondAux flag ts r) k = none := by
  induction ts with
  | nil => intro flag r hr; exact hr
  | cons t rest ih =>
      intro flag r hr
      unfold firstRandomAndBeyondAux
      by_cases h : (flag || t.isRandom) = true
      · rw [if_pos h]
        exact ih (fun u hu => hts u (List.mem_cons_of_mem _ hu)) true _
          (hts t (List.mem_cons_self _ _) r hr)
      · rw [if_neg h]
        exact ih (fun u hu => hts u (List.mem_cons_of_mem _ hu)) flag r hr

theorem getD_absent (l : List Record) (idx : Nat) (k : String) :
    (∀ r ∈ l, Record.get r k = none) → Record.get (l.getD idx []) k = none := by
  induction l generalizing idx with
  | nil => intro _; cases idx <;> rfl
  | cons a t ih =>
      intro h
      cases idx with
      | zero => exact h a (List.mem_cons_self _ _)
      | succ n => exact ih n (fun r hr => h r (List.mem_cons_of_mem _ hr))

/-- C9 (amended): on a miss with a configured and existing cache directory
the cache check inserts `"cache" = True` into the pre-random record before
saving, so the returned record and the saved blob both carry the binding
(part 1); a hit returns the stored blob verbatim, so later accesses carry
whatever the first computation saved (part 2); with no cache directory the
cache check returns the bare deterministic prefix without touching the file
system or inserting any binding (part 3), and the final sample then lacks
the `"cache"` field whenever the raw records lack it and every transform
preserves its absence (part 4). -/
theorem cache_flag_field_behaviour (md5hex : String → String)
    (pds : PersistentDataset) (fs : FS) (item : Record) :
    (∀ d : String, pds.cache_dir = some d → fs.isDir d = true →
      (Record.get item cachedKey).getD (Val.bool false) = Val.bool false →
      fs.lookup (hashfilePath md5hex d item) = none →
      (Record.get (preFirstRandomCachecheck md5hex pds fs item).1 cacheKey
          = some (Val.bool true) ∧
       FS.lookup (preFirstRandomCachecheck md5hex pds fs item).2.1
            (hashfilePath md5hex d item)
          = some (preFirstRandomCachecheck md5hex pds fs item).1)) ∧
    (∀ (d : String) (blob : Record), pds.cache_dir = some d → fs.isDir d = true →
      (Record.get item cachedKey).getD (Val.bool false) = Val.bool false →
      fs.lookup (hashfilePath md5hex d item) = some blob →
      preFirstRandomCachecheck md5hex pds fs item
        = (blob, fs, [FsEvent.load (hashfilePath md5hex d item)])) ∧
    (pds.cache_dir = none →
      (Record.get item cachedKey).getD (Val.bool false) = Val.bool false →
      preFirstRandomCachecheck md5hex pds fs item
        = (preFirstRandomTransform pds.transform item, fs, [])) ∧
    (pds.cache_dir = none →
      (∀ r ∈ pds.data, Record.get r cacheKey = none) →
      (∀ t ∈ pds.transform, ∀ r : Record, Record.get r cacheKey = none →
        Record.get (applyTransform t r) cacheKey = none) →
      ∀ index : Nat,
        Record.get (PersistentDataset.getitem md5hex pds fs index).1 cacheKey = none) := by
  refine ⟨?_, ?_, ?_, ?_⟩
  · intro d hdir hisdir hbranch hmiss
    constructor
    · simp [preFirstRandomCachecheck, hbranch, hdir, hisdir, hmiss,
            Record.get_insert_self]
    · simp only [preFirstRandomCachecheck, hbranch, if_true, hdir, hisdir]
      simp only [if_pos rfl, hmiss]
      exact lookup_save_rename fs _ _ _
  · intro d blob hdir hisdir hbranch hhit
    simp [preFirstRandomCachecheck, hbranch, hdir, hisdir, hhit]
  · intro hdir hbranch
    simp [preFirstRandomCachecheck, hbranch, hdir]
  · intro hdir hdata hts index
    have hitem : Record.get (pds.data.getD index []) cacheKey = none :=
      getD_absent pds.data index cacheKey hdata
    have hpre : Record.get (preFirstRandomCachecheck md5hex pds fs
        (pds.data.getD index [])).1 cacheKey = none := by
      unfold preFirstRandomCachecheck
      by_cases hb : (Record.get (pds.data.getD index []) cachedKey).getD (Val.bool false)
          = Val.bool false
      · rw [if_pos hb]
        simp only [hdir]
        exact preFirstRandom_absent pds.transform cacheKey hts _ hitem
      · rw [if_neg hb]
        exact hitem
    unfold PersistentDataset.getitem firstRandomAndBeyondTransform
    exact beyondAux_absent pds.transform cacheKey hts false _ hpre

/-- Witness for C9's amended statement: part 1 at the concrete miss
scenario, and part 4 for a dataset with no cache directory and no
transforms. -/
theorem cache_flag_field_behaviour_witness :
    (Record.get (preFirstRandomCachecheck (fun s => s) missDataset emptyCacheFS sampleRec).1
        cacheKey = some (Val.bool true) ∧
     FS.lookup (preFirstRandomCachecheck (fun s => s) missDataset emptyCacheFS sampleRec).2.1
          (hashfilePath (fun s => s) ("cd") sampleRec)
        = some (preFirstRandomCachecheck (fun s => s) missDataset emptyCacheFS sampleRec).1) ∧
    (Record.get (PersistentDataset.getitem (fun s => s)
        ⟨[sampleRec], [], none⟩ emptyCacheFS 0).1 cacheKey = none) :=
  ⟨(cache_flag_field_behaviour (fun s => s) missDataset emptyCacheFS sampleRec).1
      ("cd") rfl (by decide) (by decide) (by decide),
   (cache_flag_field_behaviour (fun s => s) ⟨[sampleRec], [], none⟩ emptyCacheFS sampleRec).2.2.2
      rfl (by intro r hr; cases hr with
            | head => decide
            | tail _ h => cases h)
      (by intro t ht; cases ht) 0⟩

/-- Counterexample to C9 as stated: with no cache directory a deterministic
stage that itself inserts the `"cache"` binding makes the sample carry the
field, and with a cache directory a random stage that replaces the record
erases the binding from the final sample even though the caching path ran
(its event trace is the save and rename of a fresh entry). -/
theorem cache_flag_field_claim_false :
    ((⟨[sampleRec], [⟨false, fun r => Record.insert r cacheKey (Val.bool true)⟩], none⟩
        : PersistentDataset).cache_dir = none ∧
     Record.get (PersistentDataset.getitem (fun s => s)
        ⟨[sampleRec], [⟨false, fun r => Record.insert r cacheKey (Val.bool true)⟩], none⟩
        emptyCacheFS 0).1 cacheKey = some (Val.bool true)) ∧
    ((⟨[sampleRec], [⟨true, fun _ => []⟩], some ("cd")⟩
        : PersistentDataset).cache_dir = some ("cd") ∧
     (PersistentDataset.getitem (fun s => s)
        ⟨[sampleRec], [⟨true, fun _ => []⟩], some ("cd")⟩ emptyCacheFS 0).2.2 ≠ [] ∧
     Record.get (PersistentDataset.getitem (fun s => s)
        ⟨[sampleRec], [⟨true, fun _ => []⟩], some ("cd")⟩ emptyCacheFS 0).1 cacheKey
       = none) := by
  refine ⟨⟨rfl, by decide⟩, ⟨rfl, by decide, by decide⟩⟩

/-- Modelled from the spec: a transform held by a member `Dataset` of an
`ArrayDataset`.  `monai.transforms.Randomizable` is not part of the sources
under study; per spec sections 4.4 and 9 a random stage carries an
explicit, externally settable random-state object consumed when the stage
runs, here reduced to the seed installed by `set_random_state`; a
deterministic stage has no such state. -/
inductive MemberTransform where
  | det (f : Record → Record)
  | rand (seed : Nat) (f : Nat → Record → Record)

/-- Calling a member transform: a random stage consumes its installed
seed. -/
def MemberTransform.apply : MemberTransform → Record → Record
  | MemberTransform.det f, r => f r
  | MemberTransform.rand seed f, r => f seed r

/-- A member dataset of an `ArrayDataset`: one of the `Dataset(x[0], x[1])`
instances built at `dataset.py` line 404, with its optional transform. -/
structure MemberDataset where
  data : List Record
  transform : Option MemberTransform

/-- Embedding of `Dataset.__getitem__` for a member dataset. -/
def MemberDataset.getitem (ds : MemberDataset) (index : Nat) : Record :=
  let x := ds.data.getD index []
  match ds.transform with
  | none => x
  | some t => MemberTransform.apply t x

/-- The loop at `dataset.py` lines 411-413: when the member's transform is
an instance of `Randomizable`, `set_random_state(seed=self.seed)` installs
the drawn seed; other member datasets are untouched. -/
def MemberDataset.seedIfRandomizable (s : Nat) (ds : MemberDataset) : MemberDataset :=
  match ds.transform with
  | some (MemberTransform.rand _ f) => ⟨ds.data, some (MemberTransform.rand s f)⟩
  | _ => ds

/-- Embedding of `ZipDataset.__getitem__` (`dataset.py` lines 330-339) as
instantiated by `ArrayDataset`: each member returns one record (a dict, so
`to_list` wraps it in a singleton), and no post-zip transform is
configured. -/
def zipGetitem (dss : List MemberDataset) (index : Nat) : List Record :=
  dss.map (fun ds => MemberDataset.getitem ds index)

/-- Modelled from the spec: the dataset's own random state `self.R`
(a `numpy` random generator, external to the sources under study), rendered
as a stream of pre-drawn values and a position; `randint(bound)` consumes
the next value, reduced into `[0, bound)`. -/
structure RandState where
  stream : Nat → Nat
  pos : Nat

/-- One draw from the random state. -/
def RandState.randint (s : RandState) (bound : Nat) : Nat × RandState :=
  (s.stream s.pos % bound, ⟨s.stream, s.pos + 1⟩)

/-- The bound `np.iinfo(np.int32).max` used at `dataset.py` line 407. -/
def int32max : Nat := 2 ^ 31 - 1

/-- Embedding of `monai.data.dataset.ArrayDataset`: its own random state
`self.R`, the current `self.seed`, and the zipped member datasets. -/
structure ArrayDataset where
  rstate : RandState
  seed : Nat
  datasets : List MemberDataset

/-- Embedding of `ArrayDataset.randomize` (`dataset.py` lines 406-407):
`self.seed = self.R.randint(np.iinfo(np.int32).max)`. -/
def ArrayDataset.randomize (ad : ArrayDataset) : ArrayDataset :=
  let p := ad.rstate.randint int32max
  ⟨p.2, p.1, ad.datasets⟩

/-- Embedding of `ArrayDataset.__getitem__` (`dataset.py` lines 409-414):
draw one seed, install it into every member dataset whose transform is
`Randomizable`, then produce the zipped sample from the (mutated) member
datasets.  Returns the sample and the updated dataset state. -/
def ArrayDataset.getitem (ad : ArrayDataset) (index : Nat) : List Record × ArrayDataset :=
  let ad1 := ad.randomize
  let ds2 := ad1.datasets.map (MemberDataset.seedIfRandomizable ad1.seed)
  (zipGetitem ds2 index, ⟨ad1.rstate, ad1.seed, ds2⟩)

theorem seeded_all (s : Nat) (l : List MemberDataset) :
    ((l.map (MemberDataset.seedIfRandomizable s)).all (fun ds =>
      match ds.transform with
      | some (MemberTransform.rand s2 _) => s2 == s
      | _ => true)) = true := by
  induction l with
  | nil => rfl
  | cons d t ih =>
      simp only [List.map_cons, List.all_cons, ih, Bool.and_true]
      unfold MemberDataset.seedIfRandomizable
      match hd : d.transform with
      | none => simp [hd]
      | some (MemberTransform.det f) => simp [hd]
      | some (MemberTransform.rand s2 f) => simp [hd]

/-- C3: one `ArrayDataset.__getitem__` call draws exactly one seed from the
dataset's own random state (the position advances by one and `self.seed`
becomes the value drawn there), every member dataset whose transform is
`Randomizable` ends up with exactly that seed installed, and the returned
sample is produced from the members only after the seed was installed, so
all paired random member transforms consume identical random parameters. -/
theorem arrayDataset_shared_seed (ad : ArrayDataset) (index : Nat) :
    ((ad.getitem index).2.rstate.pos = ad.rstate.pos + 1) ∧
    ((ad.getitem index).2.seed = ad.rstate.stream ad.rstate.pos % int32max) ∧
    (((ad.getitem index).2.datasets.all (fun ds =>
        match ds.transform with
        | some (MemberTransform.rand s2 _) => s2 == (ad.getitem index).2.seed
        | _ => true)) = true) ∧
    ((ad.getitem index).1
        = zipGetitem (ad.datasets.map (MemberDataset.seedIfRandomizable
            (ad.rstate.stream ad.rstate.pos % int32max))) index) := by
  refine ⟨rfl, rfl, ?_, rfl⟩
  exact seeded_all _ ad.datasets

end Monai
